import Mathlib

/-!
# Verification of the trip logbook (`src/main.py`)

Shallow embedding of the single-table trip logger: the sqlite table
`trips(id, datetime, vehicle, trip_date, start_km, end_km, km_travelled, remark)`,
the Streamlit form gating on `existing_start` / `existing_end`, the total-KM
metric, the admin update/delete statements, and the download/export table
(CSV / Excel / PDF).

Integers are modelled as `Int` (Python/sqlite integers are unbounded for the
ranges involved), NULLable columns as `Option Int`, and the database as a list
of rows in insertion order.
-/

/-- One row of the `trips` table.  `start_km`, `end_km` and `km_travelled`
are INTEGER columns that may be NULL. -/
structure TripRow where
  id : Nat
  datetime : String
  vehicle : String
  trip_date : String
  start_km : Option Int
  end_km : Option Int
  km_travelled : Option Int
  remark : String
deriving DecidableEq, Repr

abbrev DB := List TripRow

/-- Errors of the entry state machine.  The source enforces them by showing or
hiding form controls; the spec directs that a hidden/forbidden action is an
`InvalidState` rejection, an end reading at or below the start (excluded by the
number input's lower bound `start_km + 1`) is an `InvalidRange` rejection, and
`typeError` stands for the `int(...)` call raising on a NaN cell. -/
inductive TripError where
  | invalidState
  | invalidRange
  | typeError
deriving DecidableEq, Repr

/-- Insertion step for `ORDER BY id DESC`. -/
def insertIdDesc (r : TripRow) : DB → DB
  | [] => [r]
  | x :: xs => if x.id ≤ r.id then r :: x :: xs else x :: insertIdDesc r xs

/-- `ORDER BY id DESC` (insertion sort; ids are a primary key, hence unique). -/
def orderByIdDesc : DB → DB
  | [] => []
  | x :: xs => insertIdDesc x (orderByIdDesc xs)

/-- `SELECT * FROM trips WHERE vehicle=? AND trip_date=? ORDER BY id DESC`
(the frame `vehicle_data` of the entry tab). -/
def vehicleData (db : DB) (v d : String) : DB :=
  orderByIdDesc (db.filter fun r => r.vehicle == v && r.trip_date == d)

/-- A cell of an INTEGER column as pandas delivers it: when every value of the
column is NULL the column keeps object dtype and the cell is Python `None`;
when any value of the column is an integer the column is numeric and a NULL
cell is `NaN`. -/
inductive PCell where
  | null
  | nan
  | int (n : Int)
deriving DecidableEq, Repr

/-- Read one cell of row `r` out of the frame `rows` (pandas dtype rules). -/
def readCell (rows : DB) (f : TripRow → Option Int) (r : TripRow) : PCell :=
  match f r with
  | some n => .int n
  | none => if rows.all fun x => (f x).isNone then .null else .nan

/-- Python `cell is not None`: `NaN` is a float object, so it is not `None`. -/
def PCell.isNotNone : PCell → Bool
  | .null => false
  | .nan => true
  | .int _ => true

/-- `vehicle_data.iloc[-1]`: the last row of the id-descending frame
(so the row with the smallest id). -/
def lastRow (db : DB) (v d : String) : Option TripRow :=
  (vehicleData db v d).getLast?

/-- `existing_start = not vehicle_data.empty and
vehicle_data.iloc[-1]['start_km'] is not None`. -/
def existing_start (db : DB) (v d : String) : Bool :=
  match lastRow db v d with
  | none => false
  | some r => (readCell (vehicleData db v d) TripRow.start_km r).isNotNone

/-- `existing_end = not vehicle_data.empty and
vehicle_data.iloc[-1]['end_km'] is not None`. -/
def existing_end (db : DB) (v d : String) : Bool :=
  match lastRow db v d with
  | none => false
  | some r => (readCell (vehicleData db v d) TripRow.end_km r).isNotNone

/-- AUTOINCREMENT primary key: one more than the largest id present. -/
def freshId (db : DB) : Nat := (db.map TripRow.id).foldr max 0 + 1

/-- The "Submit Start KM" action, with the form gating of the source:
when `existing_start and existing_end` the tab only shows the
"already fully recorded" warning; the start control is offered exactly when
`not existing_start`; otherwise the tab is in the end-entry branch.  A state
in which the control is not offered rejects the action as `InvalidState`.
A successful submit runs
`INSERT INTO trips (datetime, vehicle, trip_date, start_km, end_km, km_travelled, remark)
VALUES (?, ?, ?, ?, NULL, NULL, ?)`. -/
def submitStart (db : DB) (v d : String) (s : Int) (rem now : String) :
    DB × Option TripError :=
  if existing_start db v d && existing_end db v d then
    (db, some .invalidState)
  else if !existing_start db v d then
    (db ++ [{ id := freshId db, datetime := now, vehicle := v, trip_date := d,
              start_km := some s, end_km := none, km_travelled := none,
              remark := rem }],
     none)
  else
    (db, some .invalidState)

/-- The "Submit End KM" action: offered exactly when
`existing_start and not existing_end`.  It reads
`start_km_value = vehicle_data.iloc[-1]['start_km']` and
`row_id = vehicle_data.iloc[-1]['id']`, the number input bounds the end
reading below by `start_km_value + 1` (an end at or below the start is
rejected, `InvalidRange`), and a successful submit runs
`UPDATE trips SET end_km=?, km_travelled=? WHERE id=?` with
`km_travelled = int(end_km) - int(start_km_value)`. -/
def submitEnd (db : DB) (v d : String) (e : Int) : DB × Except TripError Int :=
  if existing_start db v d && !existing_end db v d then
    match lastRow db v d with
    | none => (db, .error .invalidState)
    | some r =>
      match readCell (vehicleData db v d) TripRow.start_km r with
      | .int s =>
        if e ≤ s then (db, .error .invalidRange)
        else
          (db.map fun x =>
            if x.id == r.id then
              { x with end_km := some e, km_travelled := some (e - s) }
            else x,
           .ok (e - s))
      | _ => (db, .error .typeError)
  else (db, .error .invalidState)

/-- SQL `SUM`: NULL over the empty set, otherwise the sum of the non-NULL
values. -/
def sqlSum (l : List Int) : Option Int :=
  if l.isEmpty then none else some l.sum

/-- Python `x or 0` on the value read back from `SUM` (`None` and `0` are
falsy and give `0`). -/
def orZero (o : Option Int) : Int :=
  match o with
  | none => 0
  | some n => n

/-- `SELECT SUM(km_travelled) as total FROM trips WHERE vehicle=?`
followed by `... or 0` (the "Total KM Travelled" metric). -/
def total_km (db : DB) (v : String) : Int :=
  orZero (sqlSum ((db.filter fun r => r.vehicle == v).filterMap
    TripRow.km_travelled))

/-- Admin "Update Entry":
`UPDATE trips SET start_km=?, end_km=?, km_travelled=?, remark=? WHERE id=?`
with `new_km = new_end - new_start`, followed unconditionally by
`st.success("Entry updated.")` (the `Bool` component). -/
def adminUpdate (db : DB) (eid : Nat) (ns ne : Int) (nr : String) :
    DB × Bool :=
  (db.map fun r =>
    if r.id == eid then
      { r with start_km := some ns, end_km := some ne,
               km_travelled := some (ne - ns), remark := nr }
    else r,
   true)

/-- Admin "Delete Entry": `DELETE FROM trips WHERE id=?`, followed
unconditionally by `st.success("Entry deleted.")`. -/
def adminDelete (db : DB) (eid : Nat) : DB × Bool :=
  (db.filter fun r => !(r.id == eid), true)

/-- `pd.to_numeric(col, errors="coerce").fillna(0).astype(int)` on an
INTEGER-or-NULL column: NULL becomes `0`, integers stay themselves. -/
def coerceFill0 (o : Option Int) : Int := o.getD 0

/-- The column headers of `df_download` after `insert(0, "Sr. No", ...)`:
the SELECT aliases `Date`, `Start Time`, `Start KM`, `End KM`,
`KM Travelled`, `Remarks`. -/
def headerCells : List String :=
  ["Sr. No", "Date", "Start Time", "Start KM", "End KM", "KM Travelled",
   "Remarks"]

/-- One data row of `df_download`: sequence number `n`, then the selected
columns with the numeric ones coerced. -/
def rowCells (n : Nat) (r : TripRow) : List String :=
  [toString n, r.trip_date, r.datetime,
   toString (coerceFill0 r.start_km), toString (coerceFill0 r.end_km),
   toString (coerceFill0 r.km_travelled), r.remark]

/-- `df_download.insert(0, "Sr. No", range(1, len(df_download) + 1))`:
number the rows starting at `n`. -/
def numberRows : Nat → List TripRow → List (List String)
  | _, [] => []
  | n, r :: rs => rowCells n r :: numberRows (n + 1) rs

/-- `df_download.to_csv(...)`: the header row, then one line per record. -/
def csvTable (rows : List TripRow) : List (List String) :=
  headerCells :: numberRows 1 rows

/-- `df_download.to_excel(..., sheet_name="Trips")`: the same frame written
to the single sheet. -/
def excelSheet : String := "Trips"

/-- The spreadsheet carries the same table as the CSV. -/
def excelTable (rows : List TripRow) : List (List String) :=
  csvTable rows

/-- The PDF table: the headers plus the trailing `"Signature"` header, and
each data row followed by one empty bordered cell. -/
def pdfTable (rows : List TripRow) : List (List String) :=
  (headerCells ++ ["Signature"]) :: (numberRows 1 rows).map fun cs => cs ++ [""]

/-- `if not df_download.empty:` — an empty range renders nothing (the
"No data found" warning), a non-empty one renders the table. -/
def downloadCsv (rows : List TripRow) : Option (List (List String)) :=
  if rows.isEmpty then none else some (csvTable rows)

/-- Spec wording for C1: "the most recent record for the pair
(ordered by id, last wins)", i.e. the pair's record with the largest id. -/
def specLatestRecord (db : DB) (v d : String) : Option TripRow :=
  (vehicleData db v d).head?

/-- Spec wording for C2: "the sum of the distance column across all rows". -/
def specDistanceSum (rows : List TripRow) : Int :=
  (rows.map fun r => coerceFill0 r.km_travelled).sum

/- Concrete fixtures. -/

/-- A completed trip (id 1) for the pair ("Ertiga", "2024-01-05"). -/
def rowDone1 : TripRow :=
  ⟨1, "2024-01-05 08:00:00", "Ertiga", "2024-01-05",
   some 100, some 150, some 50, ""⟩

/-- An open trip (id 2) for the same pair: end and distance NULL. -/
def rowOpen2 : TripRow :=
  ⟨2, "2024-01-05 14:00:00", "Ertiga", "2024-01-05",
   some 150, none, none, ""⟩

/-- A pair holding a completed record and a newer open record. -/
def dbC1 : DB := [rowDone1, rowOpen2]

/-- Export fixture: two completed rows with distances 30 and 45. -/
def rowA : TripRow :=
  ⟨1, "2024-01-05 08:00:00", "Ertiga", "2024-01-05",
   some 100, some 130, some 30, "morning"⟩

def rowB : TripRow :=
  ⟨2, "2024-01-05 14:00:00", "Ertiga", "2024-01-05",
   some 200, some 245, some 45, "afternoon"⟩

def rowsCex : List TripRow := [rowA, rowB]

/-- The store after one `submitStart` on an empty database. -/
def dbAfterStart : DB :=
  (submitStart [] "Ertiga" "2024-01-05" 1000 "" "2024-01-05 08:00:00").1

/-- The store after that trip is then completed at 1050. -/
def dbAfterEnd : DB :=
  (submitEnd dbAfterStart "Ertiga" "2024-01-05" 1050).1

/-! ## Helper lemmas -/

theorem mem_insertIdDesc {x r : TripRow} {l : DB} :
    x ∈ insertIdDesc r l ↔ x = r ∨ x ∈ l := by
  induction l with
  | nil => simp [insertIdDesc]
  | cons y ys ih =>
    by_cases h : y.id ≤ r.id
    · simp [insertIdDesc, h]
    · simp [insertIdDesc, h, ih]
      tauto

theorem mem_orderByIdDesc {x : TripRow} {l : DB} :
    x ∈ orderByIdDesc l ↔ x ∈ l := by
  induction l with
  | nil => simp [orderByIdDesc]
  | cons y ys ih => simp [orderByIdDesc, mem_insertIdDesc, ih]

theorem mem_vehicleData {db : DB} {v d : String} {x : TripRow} :
    x ∈ vehicleData db v d ↔
      x ∈ db ∧ x.vehicle = v ∧ x.trip_date = d := by
  simp [vehicleData, mem_orderByIdDesc, List.mem_filter]

/-- If some row of the pair has a start value, the frame is non-empty and the
examined cell is not `None` (it is an integer or `NaN`). -/
theorem existing_start_of_some (db : DB) (v d : String) {r : TripRow}
    (hm : r ∈ vehicleData db v d) (hs : (r.start_km).isSome) :
    existing_start db v d = true := by
  have hall : ¬ ((vehicleData db v d).all fun x => (x.start_km).isNone) = true := by
    intro hcontra
    have hnone := List.all_eq_true.mp hcontra r hm
    rw [Option.isNone_iff_eq_none.mp hnone] at hs
    exact Bool.false_ne_true hs
  unfold existing_start
  split
  · next heq =>
    unfold lastRow at heq
    exact absurd (List.getLast?_eq_none_iff.mp heq) (List.ne_nil_of_mem hm)
  · next y heq =>
    unfold readCell
    split
    · rfl
    · rw [if_neg hall]
      rfl

/-- If the examined cell for the end column is `None`, every row of the pair
has a NULL end (the column had object dtype). -/
theorem end_none_of_existing_end_false {db : DB} {v d : String}
    (h : existing_end db v d = false) :
    ∀ x ∈ vehicleData db v d, x.end_km = none := by
  intro x hx
  unfold existing_end at h
  split at h
  · next heq =>
    unfold lastRow at heq
    exact absurd (List.getLast?_eq_none_iff.mp heq) (List.ne_nil_of_mem hx)
  · next y heq =>
    unfold readCell at h
    split at h
    · exact absurd h (by simp [PCell.isNotNone])
    · by_cases hall : ((vehicleData db v d).all fun z => (z.end_km).isNone) = true
      · exact Option.isNone_iff_eq_none.mp (List.all_eq_true.mp hall x hx)
      · rw [if_neg hall] at h
        exact absurd h (by simp [PCell.isNotNone])

/-- Whenever some row of the pair carries a start reading, the start control
is not offered and the start action is rejected without touching the store. -/
theorem submitStart_blocked {db : DB} {v d : String} {r : TripRow}
    (hm : r ∈ vehicleData db v d) (hs : (r.start_km).isSome)
    (s : Int) (rem now : String) :
    submitStart db v d s rem now = (db, some TripError.invalidState) := by
  have hstart := existing_start_of_some db v d hm hs
  unfold submitStart
  cases hend : existing_end db v d <;> simp [hstart, hend]

theorem orZero_sqlSum (l : List Int) : orZero (sqlSum l) = l.sum := by
  cases l <;> simp [orZero, sqlSum]

theorem filterMap_km_sum (l : DB) :
    (l.filterMap TripRow.km_travelled).sum
      = (l.map fun r => (r.km_travelled).getD 0).sum := by
  induction l with
  | nil => rfl
  | cons r rs ih =>
    cases h : r.km_travelled <;>
      simp [List.filterMap_cons, h, ih]

theorem numberRows_length (n : Nat) (rows : List TripRow) :
    (numberRows n rows).length = rows.length := by
  induction rows generalizing n with
  | nil => rfl
  | cons r rs ih => simp [numberRows, ih]

theorem numberRows_getElem? (n i : Nat) (rows : List TripRow) :
    (numberRows n rows)[i]? = rows[i]?.map fun r => rowCells (n + i) r := by
  induction rows generalizing n i with
  | nil => simp [numberRows]
  | cons r rs ih =>
    cases i with
    | zero => simp [numberRows]
    | succ j =>
      simp only [numberRows, List.getElem?_cons_succ, ih (n + 1) j]
      rw [show n + 1 + j = n + (j + 1) by omega]

theorem numberRows_map_km (n : Nat) (rows : List TripRow) :
    (numberRows n rows).map (fun cs => cs[5]?)
      = rows.map fun r => some (toString (coerceFill0 r.km_travelled)) := by
  induction rows generalizing n with
  | nil => rfl
  | cons r rs ih => simp [numberRows, rowCells, ih]

theorem numberRows_sig_map_km (n : Nat) (rows : List TripRow) :
    ((numberRows n rows).map fun cs => cs ++ [""]).map (fun cs => cs[5]?)
      = rows.map fun r => some (toString (coerceFill0 r.km_travelled)) := by
  induction rows generalizing n with
  | nil => rfl
  | cons r rs ih =>
    simp only [numberRows, List.map_cons, List.map_map] at ih ⊢
    rw [ih]
    rfl

/-- In the awaiting-end state (the examined row has a start reading and the
end column of the pair is all NULL) the end action either rejects an end at or
below the start, or updates exactly the rows carrying the examined id. -/
theorem submitEnd_open (db : DB) (v d : String) {r : TripRow} {s : Int}
    (h1 : lastRow db v d = some r) (h2 : r.start_km = some s)
    (h3 : existing_end db v d = false) (e : Int) :
    submitEnd db v d e =
      if e ≤ s then (db, .error .invalidRange)
      else
        (db.map fun x =>
          if x.id == r.id then
            { x with end_km := some e, km_travelled := some (e - s) }
          else x,
         .ok (e - s)) := by
  have h1' : (vehicleData db v d).getLast? = some r := h1
  have hm : r ∈ vehicleData db v d := List.mem_of_getLast?_eq_some h1'
  have hstart := existing_start_of_some db v d hm (by rw [h2]; rfl)
  have hcell : readCell (vehicleData db v d) TripRow.start_km r = .int s := by
    unfold readCell
    rw [h2]
  unfold submitEnd
  rw [hstart, h3, h1]
  simp only [hcell, Bool.not_false, Bool.and_self, if_true]

theorem total_km_eq_sum (l : DB) (v : String) :
    total_km l v
      = ((l.filter fun x => x.vehicle == v).filterMap TripRow.km_travelled).sum := by
  unfold total_km
  rw [orZero_sqlSum]

/-- Updating the rows that carry the (unique) id of an open row `r` of
vehicle `v` raises the vehicle total by exactly the new distance. -/
theorem total_km_after_update (db : DB) (v : String) (r : TripRow)
    (e s : Int) (hrdb : r ∈ db) (hveh : r.vehicle = v)
    (hkm : r.km_travelled = none) (h6 : (db.map TripRow.id).Nodup) :
    total_km
      (db.map fun x =>
        if x.id == r.id then
          { x with end_km := some e, km_travelled := some (e - s) }
        else x) v
      = total_km db v + (e - s) := by
  obtain ⟨l1, l2, hsplit⟩ := List.append_of_mem hrdb
  subst hsplit
  have hmid : (l1.map TripRow.id ++ TripRow.id r :: l2.map TripRow.id).Nodup := by
    simpa using h6
  have hnot : r.id ∉ l1.map TripRow.id ++ l2.map TripRow.id :=
    (List.nodup_cons.mp (List.nodup_middle.mp hmid)).1
  have hid : ∀ x ∈ l1 ++ l2, ¬ x.id = r.id := by
    intro x hx hEq
    exact hnot (by
      rw [← hEq]
      rcases List.mem_append.mp hx with h | h
      · exact List.mem_append_left _ (List.mem_map_of_mem _ h)
      · exact List.mem_append_right _ (List.mem_map_of_mem _ h))
  have hg1 : ∀ x ∈ l1, (if x.id == r.id then
      { x with end_km := some e, km_travelled := some (e - s) } else x) = x := by
    intro x hx
    rw [if_neg]
    simp only [beq_iff_eq]
    exact hid x (List.mem_append_left _ hx)
  have hg2 : ∀ x ∈ l2, (if x.id == r.id then
      { x with end_km := some e, km_travelled := some (e - s) } else x) = x := by
    intro x hx
    rw [if_neg]
    simp only [beq_iff_eq]
    exact hid x (List.mem_append_right _ hx)
  have hgr : (if r.id == r.id then
      { r with end_km := some e, km_travelled := some (e - s) } else r)
      = { r with end_km := some e, km_travelled := some (e - s) } := by
    rw [if_pos]
    exact beq_iff_eq.mpr rfl
  rw [List.map_append, List.map_cons]
  rw [(List.map_congr_left hg1).trans (List.map_id l1)]
  rw [(List.map_congr_left hg2).trans (List.map_id l2)]
  rw [hgr]
  rw [total_km_eq_sum, total_km_eq_sum]
  have hpv : (TripRow.vehicle r == v) = true := beq_iff_eq.mpr hveh
  simp only [List.filter_append, List.filterMap_append, List.sum_append,
    List.filter_cons, hpv, if_true, List.filterMap_cons, hkm, List.sum_cons]
  omega

/-- Every row of the updated store that carries the examined id has the new
end reading and the new distance. -/
theorem update_fields (db : DB) (r : TripRow) (e s : Int) :
    ∀ x ∈ (db.map fun x =>
        if x.id == r.id then
          { x with end_km := some e, km_travelled := some (e - s) }
        else x),
      x.id = r.id → x.end_km = some e ∧ x.km_travelled = some (e - s) := by
  intro x hx hxid
  obtain ⟨y, hy, hgy⟩ := List.mem_map.mp hx
  by_cases h : y.id = r.id
  · rw [if_pos (beq_iff_eq.mpr h)] at hgy
    rw [← hgy]
    exact ⟨rfl, rfl⟩
  · rw [if_neg (fun hc => h (beq_iff_eq.mp hc))] at hgy
    rw [← hgy] at hxid
    exact absurd hxid h

/-! ## The claims -/

/-- C1: the claim says `getState` classifies the pair's most recent record
(largest id), an open newest record giving the awaiting-end state
(`hasOpenEnd = false`).  Evaluating the code at a pair holding a completed
record (id 1) and a newer open record (id 2): the newest record has a NULL
end, yet the code computes `existing_end = true` — `vehicle_data` is ordered
by id descending but `iloc[-1]` takes its last row, the oldest record (under
the on-screen label "Last Entry"), and the NULL end of id 2 is read by pandas
as NaN, which passes `is not None` — so the pair is reported fully recorded
instead of awaiting its end. -/
theorem C1_code_reports_complete_for_open_latest :
    specLatestRecord dbC1 "Ertiga" "2024-01-05" = some rowOpen2 ∧
    rowOpen2.end_km = none ∧
    lastRow dbC1 "Ertiga" "2024-01-05" = some rowDone1 ∧
    existing_start dbC1 "Ertiga" "2024-01-05" = true ∧
    existing_end dbC1 "Ertiga" "2024-01-05" = true := by
  decide

/-- C2 counterexample: for two rows with distances 30 and 45 (sum 75) no
export carries a total row: the KM-Travelled column of the CSV, Excel and PDF
tables reads header, "30", "45" — no cell holds 75 — and the last rendered
row is the second data row, not a synthetic total row. -/
theorem C2_counterexample :
    specDistanceSum rowsCex = 75 ∧
    (csvTable rowsCex).map (fun cs => cs[5]?)
      = [some "KM Travelled", some "30", some "45"] ∧
    (excelTable rowsCex).map (fun cs => cs[5]?)
      = [some "KM Travelled", some "30", some "45"] ∧
    (pdfTable rowsCex).map (fun cs => cs[5]?)
      = [some "KM Travelled", some "30", some "45"] ∧
    (csvTable rowsCex).getLast? = some (rowCells 2 rowB) := by
  decide

/-- C2 (amended): for a non-empty row set every export renders the header row
followed by exactly one data row per record and appends no synthetic total
row — the KM-Travelled cells of the data rows are exactly the (coerced)
distances of the input rows; an empty row set renders nothing at all. -/
theorem C2_no_total_row (rows : List TripRow) (h : rows ≠ []) :
    downloadCsv rows = some (csvTable rows) ∧
    (csvTable rows).length = rows.length + 1 ∧
    (csvTable rows).tail.map (fun cs => cs[5]?)
      = rows.map (fun r => some (toString (coerceFill0 r.km_travelled))) ∧
    (pdfTable rows).length = rows.length + 1 ∧
    (pdfTable rows).tail.map (fun cs => cs[5]?)
      = rows.map (fun r => some (toString (coerceFill0 r.km_travelled))) ∧
    downloadCsv [] = none := by
  refine ⟨?_, ?_, ?_, ?_, ?_, rfl⟩
  · unfold downloadCsv
    rw [if_neg (fun hc => h (List.isEmpty_iff.mp hc))]
  · simp [csvTable, numberRows_length]
  · simp only [csvTable, List.tail_cons]
    exact numberRows_map_km 1 rows
  · simp [pdfTable, numberRows_length]
  · simp only [pdfTable, List.tail_cons]
    exact numberRows_sig_map_km 1 rows

/-- C2 witness: the amended statement at the two-row fixture. -/
theorem C2_no_total_row_witness :
    downloadCsv rowsCex = some (csvTable rowsCex) ∧
    (csvTable rowsCex).length = rowsCex.length + 1 := by
  have h := C2_no_total_row rowsCex (by decide)
  exact ⟨h.1, h.2.1⟩

/-- C3: whenever an incomplete record (start set, end NULL) exists for the
pair, a further start action is rejected as `InvalidState` and the store is
left unchanged — the start control is only offered when the pair carries no
start reading at all, so no second record is inserted. -/
theorem C3_second_start_rejected (db : DB) (v d : String) (r : TripRow)
    (s snew : Int) (rem now : String)
    (hm : r ∈ vehicleData db v d) (hs : r.start_km = some s)
    (_he : r.end_km = none) :
    submitStart db v d snew rem now = (db, some TripError.invalidState) :=
  submitStart_blocked hm (by rw [hs]; rfl) snew rem now

/-- The single open record created by the start action of the fixtures. -/
def rowW : TripRow :=
  ⟨1, "2024-01-05 08:00:00", "Ertiga", "2024-01-05",
   some 1000, none, none, ""⟩

/-- The same record once completed at 1050. -/
def rowWdone : TripRow :=
  ⟨1, "2024-01-05 08:00:00", "Ertiga", "2024-01-05",
   some 1000, some 1050, some 50, ""⟩

/-- C3 witness: a second start while the pair's record is still open. -/
theorem C3_witness :
    submitStart dbAfterStart "Ertiga" "2024-01-05" 1200 "" "t"
      = (dbAfterStart, some TripError.invalidState) :=
  C3_second_start_rejected dbAfterStart "Ertiga" "2024-01-05" rowW
    1000 1200 "" "t" (by decide) rfl rfl

/-- C4: in the awaiting-end state, an end reading strictly above the examined
start succeeds: it returns distance `e - s`, stores that end and distance on
the examined record, and raises the vehicle total by exactly `e - s`. -/
theorem C4_record_end_success (db : DB) (v d : String) (r : TripRow)
    (s e : Int)
    (h1 : lastRow db v d = some r) (h2 : r.start_km = some s)
    (h3 : existing_end db v d = false) (h4 : r.km_travelled = none)
    (h5 : s < e) (h6 : (db.map TripRow.id).Nodup) :
    (submitEnd db v d e).2 = Except.ok (e - s) ∧
    total_km (submitEnd db v d e).1 v = total_km db v + (e - s) ∧
    ∀ x ∈ (submitEnd db v d e).1, x.id = r.id →
      x.end_km = some e ∧ x.km_travelled = some (e - s) := by
  have heq := submitEnd_open db v d h1 h2 h3 e
  rw [if_neg (not_le.mpr h5)] at heq
  have h1' : (vehicleData db v d).getLast? = some r := h1
  obtain ⟨hrdb, hveh, -⟩ := mem_vehicleData.mp (List.mem_of_getLast?_eq_some h1')
  rw [heq]
  exact ⟨rfl, total_km_after_update db v r e s hrdb hveh h4 h6,
    update_fields db r e s⟩

/-- C4 witness: completing the single open record at 1050. -/
theorem C4_witness :
    (submitEnd dbAfterStart "Ertiga" "2024-01-05" 1050).2
      = Except.ok (1050 - 1000) ∧
    total_km (submitEnd dbAfterStart "Ertiga" "2024-01-05" 1050).1 "Ertiga"
      = total_km dbAfterStart "Ertiga" + (1050 - 1000) := by
  have h := C4_record_end_success dbAfterStart "Ertiga" "2024-01-05" rowW
    1000 1050 (by decide) rfl (by decide) rfl (by decide) (by decide)
  exact ⟨h.1, h.2.1⟩

/-- C5: in the awaiting-end state, an end reading at or below the examined
start is rejected as `InvalidRange` and the store is returned unchanged, the
open record's end and distance staying NULL. -/
theorem C5_record_end_invalid_range (db : DB) (v d : String) (r : TripRow)
    (s e : Int)
    (h1 : lastRow db v d = some r) (h2 : r.start_km = some s)
    (h3 : existing_end db v d = false) (hle : e ≤ s) :
    submitEnd db v d e = (db, Except.error TripError.invalidRange) := by
  have heq := submitEnd_open db v d h1 h2 h3 e
  rw [if_pos hle] at heq
  exact heq

/-- C5 witness: an end equal to the start (1000) is rejected. -/
theorem C5_witness :
    submitEnd dbAfterStart "Ertiga" "2024-01-05" 1000
      = (dbAfterStart, Except.error TripError.invalidRange) :=
  C5_record_end_invalid_range dbAfterStart "Ertiga" "2024-01-05" rowW
    1000 1000 (by decide) rfl (by decide) (by decide)

/-- C6 counterexample: record a start, complete the trip, then attempt a new
start for the same pair: the code rejects it (the pair is reported "already
fully recorded"), so a second trip can never be started for the pair. -/
theorem C6_counterexample :
    (submitEnd dbAfterStart "Ertiga" "2024-01-05" 1050).2 = Except.ok 50 ∧
    submitStart dbAfterEnd "Ertiga" "2024-01-05" 1100 "" "t2"
      = (dbAfterEnd, some TripError.invalidState) :=
  ⟨rfl, rfl⟩

/-- C6 (amended): storage imposes no per-pair uniqueness, but the entry state
machine refuses a new start whenever any record of the pair carries a start
reading — in particular after a record for the pair has been completed — so
the entry flow never creates a second (completed or open) record for a
pair. -/
theorem C6_no_restart_after_complete (db : DB) (v d : String) (r : TripRow)
    (snew : Int) (rem now : String)
    (hm : r ∈ vehicleData db v d) (hs : (r.start_km).isSome)
    (_hc : (r.end_km).isSome) :
    submitStart db v d snew rem now = (db, some TripError.invalidState) :=
  submitStart_blocked hm hs snew rem now

/-- C6 witness: the amended statement at the completed fixture. -/
theorem C6_witness :
    submitStart dbAfterEnd "Ertiga" "2024-01-05" 1100 "" "t2"
      = (dbAfterEnd, some TripError.invalidState) :=
  C6_no_restart_after_complete dbAfterEnd "Ertiga" "2024-01-05" rowWdone
    1100 "" "t2" (by decide) (by decide) (by decide)

/-- C7 counterexample: the export schema has no end-time column at all — the
headers (including the PDF's trailing Signature header) contain no
"End Time" entry and no duplicate, and in a rendered data row the
start-time value occurs exactly once, so no other column mirrors it. -/
theorem C7_counterexample :
    "End Time" ∉ headerCells ++ ["Signature"] ∧
    (headerCells ++ ["Signature"]).Nodup ∧
    (rowCells 1 rowA).count "2024-01-05 08:00:00" = 1 := by
  decide

/-- C7 (amended): every export carries exactly one time column, the
"Start Time" column holding the record's creation timestamp; there is no
end-time column (the PDF merely appends the blank Signature column). -/
theorem C7_single_time_column (rows : List TripRow) :
    (csvTable rows).head? = some headerCells ∧
    (excelTable rows).head? = some headerCells ∧
    (pdfTable rows).head? = some (headerCells ++ ["Signature"]) ∧
    headerCells.count "Start Time" = 1 ∧
    "End Time" ∉ headerCells :=
  ⟨rfl, rfl, rfl, by decide, by decide⟩

/-- C8: the "Total KM Travelled" metric is the sum of `km_travelled` over the
vehicle's records with NULL contributing zero; it is 0 on the empty store and
0 once all of the vehicle's records are removed. -/
theorem C8_total_km_sum (db : DB) (v : String) :
    total_km db v
      = ((db.filter fun r => r.vehicle == v).map
          fun r => (r.km_travelled).getD 0).sum ∧
    total_km [] v = 0 ∧
    total_km (db.filter fun r => !(r.vehicle == v)) v = 0 := by
  refine ⟨?_, rfl, ?_⟩
  · rw [total_km_eq_sum, filterMap_km_sum]
  · rw [total_km_eq_sum]
    rw [List.filter_filter]
    simp

/-- C9: an admin update or delete whose id is absent from the store leaves
every record unchanged and still reports success. -/
theorem C9_admin_noop_on_missing_id (db : DB) (eid : Nat)
    (ns ne : Int) (nr : String)
    (h : eid ∉ db.map TripRow.id) :
    adminUpdate db eid ns ne nr = (db, true) ∧
    adminDelete db eid = (db, true) := by
  have hid : ∀ r ∈ db, ¬ r.id = eid := by
    intro r hr hEq
    exact h (hEq ▸ List.mem_map_of_mem _ hr)
  constructor
  · unfold adminUpdate
    rw [Prod.mk.injEq]
    refine ⟨?_, rfl⟩
    refine (List.map_congr_left ?_).trans (List.map_id db)
    intro r hr
    rw [if_neg (fun hc => hid r hr (beq_iff_eq.mp hc))]
    rfl
  · unfold adminDelete
    rw [Prod.mk.injEq]
    refine ⟨?_, rfl⟩
    rw [List.filter_eq_self.mpr]
    intro r hr
    rw [beq_eq_false_iff_ne.mpr (hid r hr)]
    rfl

/-- C9 witness: update/delete with the absent id 99. -/
theorem C9_witness :
    adminUpdate [rowDone1] 99 5 7 "x" = ([rowDone1], true) ∧
    adminDelete [rowDone1] 99 = ([rowDone1], true) :=
  C9_admin_noop_on_missing_id [rowDone1] 99 5 7 "x" (by decide)

/-- C10: a row in the export range with NULL end and NULL distance renders
with the integer 0 in the End KM and KM Travelled cells of every format, not
with a blank: `to_numeric(..., errors="coerce").fillna(0)` replaces the
missing values by 0. -/
theorem C10_open_row_renders_zero (rows : List TripRow) (i : Nat)
    (r : TripRow)
    (hget : rows[i]? = some r) (hend : r.end_km = none)
    (hkm : r.km_travelled = none) :
    (csvTable rows)[i + 1]? = some (rowCells (i + 1) r) ∧
    (pdfTable rows)[i + 1]? = some (rowCells (i + 1) r ++ [""]) ∧
    (rowCells (i + 1) r)[4]? = some "0" ∧
    (rowCells (i + 1) r)[5]? = some "0" := by
  have hnum : (numberRows 1 rows)[i]? = some (rowCells (1 + i) r) := by
    rw [numberRows_getElem?, hget]
    rfl
  have h1i : 1 + i = i + 1 := Nat.add_comm 1 i
  rw [h1i] at hnum
  refine ⟨?_, ?_, ?_, ?_⟩
  · show (headerCells :: numberRows 1 rows)[i + 1]? = _
    rw [List.getElem?_cons_succ, hnum]
  · show ((headerCells ++ ["Signature"]) ::
        (numberRows 1 rows).map fun cs => cs ++ [""])[i + 1]? = _
    rw [List.getElem?_cons_succ, List.getElem?_map, hnum]
    rfl
  · rw [show (rowCells (i + 1) r)[4]?
        = some (toString (coerceFill0 r.end_km)) from rfl, hend]
    rfl
  · rw [show (rowCells (i + 1) r)[5]?
        = some (toString (coerceFill0 r.km_travelled)) from rfl, hkm]
    rfl

/-- C10 witness: the open fixture row renders "0" in both cells. -/
theorem C10_witness :
    (csvTable [rowOpen2])[1]? = some (rowCells 1 rowOpen2) ∧
    (rowCells 1 rowOpen2)[4]? = some "0" ∧
    (rowCells 1 rowOpen2)[5]? = some "0" := by
  have h := C10_open_row_renders_zero [rowOpen2] 0 rowOpen2 rfl rfl rfl
  exact ⟨h.1, h.2.2.1, h.2.2.2⟩
